import Mathlib

/-!
Verification of the aggregation-oracle logic implicit in the Prometheus/Cortex
pipeline answer-generation script (`exporters/metric/cortex/pipeline/generators/test.py`).

The script writes, for each generated record, the expected summary statistics
(final value, min, max, count, histogram bucket counts, quantile estimates) of a
batch of integer observations, dispatching on an aggregation kind string.  The
definitions below embed the configuration constants (script lines 12-29), the
eleven-slot answer record (line 44), the per-kind slot assignments (lines 69-115),
and the accumulation loop over records (lines 52-118).  All arithmetic is exact:
rational intermediate values (quantile interpolation) are carried as
numerator/denominator pairs of integers.
-/

/-- Script line 12: number of records to generate. -/
def num_records : Nat := 2000

/-- Script line 15: number of values sampled into each checkpoint batch. -/
def num_values : Nat := 8

/-- Script line 18. -/
def value_lower_limit : Int := -50

/-- Script line 19. -/
def value_upper_limit : Int := 50

/-- Script line 23: histogram bucket boundaries. -/
def histogram_boundaries : List Int := [-25, 0, 25]

/-- Script line 26: quantile ranks for distributions.  The decimal fractions
`0.25, 0.5, 0.75` are carried as exact numerator/denominator pairs because the
embedding computes in integer arithmetic. -/
def quantiles : List (Int × Int) := [(25, 100), (50, 100), (75, 100)]

/-- Script line 29: the aggregation kinds of the OTel Go SDK. -/
def aggregations : List String := ["hist", "dist", "sum", "mmsc", "lval"]

/-- The eleven-slot answer record of script line 44 (a defaultdict producing
`[0,0,0,0,0,0,0,0,0,0,0]`), with the slot names used by the output loop
(lines 130-140): final value, min, max, count, four bucket counts, three
quantile values.  Every slot defaults to zero. -/
structure SummaryRecord where
  value : Int := 0
  min : Int := 0
  max : Int := 0
  count : Int := 0
  bucket_0 : Int := 0
  bucket_1 : Int := 0
  bucket_2 : Int := 0
  bucket_3 : Int := 0
  quantile_0 : Int := 0
  quantile_1 : Int := 0
  quantile_2 : Int := 0
deriving DecidableEq, Repr

/-- Python's `min` over a non-empty list (a fold of binary min over the tail).
Python raises `ValueError` on an empty list; the script only applies it to
non-empty batches, and the `0` returned here for `[]` is outside that use. -/
def pymin : List Int → Int
  | [] => 0
  | h :: t => t.foldl min h

/-- Python's `max` over a non-empty list; see `pymin`. -/
def pymax : List Int → Int
  | [] => 0
  | h :: t => t.foldl max h

/-- `int(numpy.percentile(values, rn/rd))` with numpy's default
linear-interpolation method, in exact arithmetic: the rank `rn/rd` lives on the
0..100 percent scale; sort ascending, take the fractional index
`(rn/rd)/100 * (n-1)`, interpolate linearly between the two bracketing sorted
elements, and truncate the result toward zero (Python `int()`).  The fractional
index is the unreduced fraction `idxn/idxd`; its floor and ceiling select the
bracketing elements, and the final `Int.tdiv` by the positive denominator is
exactly truncation toward zero.  Exact rationals stand in for numpy's float64;
on the small integer inputs of this development the two agree after
truncation. -/
def npPercentileTrunc (values : List Int) (rn rd : Int) : Int :=
  let sorted := List.insertionSort (fun a b => a ≤ b) values
  let idxn : Int := rn * ((values.length : Int) - 1)
  let idxd : Int := rd * 100
  let lo : Int := Int.fdiv idxn idxd
  let hi : Int := -(Int.fdiv (-idxn) idxd)
  let xlo : Int := sorted.getD lo.toNat 0
  let xhi : Int := sorted.getD hi.toNat 0
  Int.tdiv (xlo * idxd + (xhi - xlo) * (idxn - lo * idxd)) idxd

/-- Script lines 94-96: slot `8+k` of a distribution answer is
`int(np.percentile(values_numpy, quantiles[k]))` — the fractional rank
`quantiles[k]` is passed to `numpy.percentile` as is, i.e. on numpy's 0..100
percent scale. -/
def distQuantileSlot (values : List Int) (k : Nat) : Int :=
  let q := quantiles.getD k (0, 1)
  npPercentileTrunc values q.1 q.2

/-- The per-kind slot assignments of script lines 69-115, applied to the current
answer record for the series (the defaultdict entry).  The histogram branch
hardcodes the boundaries `-25, 0, 25` and stores the constant `num_values` in
the count slot and the final bucket, exactly as the source does.  A kind outside
the five leaves the record untouched (the `if`/`elif` chain has no `else`). -/
def applyKind (agg_type : String) (values : List Int) (rec : SummaryRecord) :
    SummaryRecord :=
  if agg_type = "sum" then
    { rec with value := values.sum }
  else if agg_type = "lval" then
    { rec with value := values.getD (values.length - 1) 0 }
  else if agg_type = "mmsc" then
    { rec with
      value := values.sum
      min := pymin values
      max := pymax values
      count := (num_values : Int) }
  else if agg_type = "dist" then
    { rec with
      value := values.sum
      min := pymin values
      max := pymax values
      count := (num_values : Int)
      quantile_0 := distQuantileSlot values 0
      quantile_1 := distQuantileSlot values 1
      quantile_2 := distQuantileSlot values 2 }
  else if agg_type = "hist" then
    { rec with
      value := values.sum
      count := (num_values : Int)
      bucket_0 := ((values.filter (fun i => i < -25)).length : Int)
      bucket_1 := ((values.filter (fun i => i < 0)).length : Int)
      bucket_2 := ((values.filter (fun i => i < 25)).length : Int)
      bucket_3 := (num_values : Int) }
  else
    rec

/-- The answer record the script produces for one series: the per-kind
assignments applied to the all-zero defaultdict entry. -/
def computeAnswer (agg_type : String) (values : List Int) : SummaryRecord :=
  applyKind agg_type values {}

/-- The linear-interpolation quantile the spec describes, truncated toward zero,
stated directly from the spec's words for comparison with the script's
computation: the rank `qn/qd` is a *fractional* rank in `[0,1]`; sort the values
ascending, form the fractional index `(qn/qd) * (n-1)`, interpolate linearly
between the two bracketing sorted elements, and truncate toward zero. -/
def specLinearQuantileTrunc (values : List Int) (qn qd : Int) : Int :=
  let sorted := List.insertionSort (fun a b => a ≤ b) values
  let idxn : Int := qn * ((values.length : Int) - 1)
  let idxd : Int := qd
  let lo : Int := Int.fdiv idxn idxd
  let hi : Int := -(Int.fdiv (-idxn) idxd)
  let xlo : Int := sorted.getD lo.toNat 0
  let xhi : Int := sorted.getD hi.toNat 0
  Int.tdiv (xlo * idxd + (xhi - xlo) * (idxn - lo * idxd)) idxd

/-- The number of values strictly below a bound, as an integer slot value —
the `len([i for i in values if i < b])` pattern of script lines 106-112. -/
def countBelow (values : List Int) (b : Int) : Int :=
  ((values.filter (fun i => i < b)).length : Int)

/-- The histogram bucket-count row for an arbitrary ascending boundary list:
one `countBelow` bucket per boundary, followed by the final `(-inf, +inf)`
bucket, which the script fills with the constant `num_values` (line 115). -/
def histBuckets (values boundaries : List Int) : List Int :=
  boundaries.map (countBelow values) ++ [(num_values : Int)]

/-- One generated record of the script's main loop (lines 52-68): an
aggregation kind, the unique properties string identifying the series, and the
sampled batch of values. -/
structure GenRecord where
  agg_type : String
  agg_properties : String
  values : List Int
deriving DecidableEq, Repr

/-- The nested `answers` defaultdict, as a total map from kind and properties
strings to the record of eleven slots (absent entries read as all zeros). -/
def AnswersMap : Type := String → String → SummaryRecord

/-- One iteration of the script's main loop: the slot assignments of the
record's branch are applied to the `answers` entry keyed by the record's kind
and properties string; every other entry is untouched. -/
def updateAnswers (a : AnswersMap) (r : GenRecord) : AnswersMap :=
  fun t p =>
    if t = r.agg_type ∧ p = r.agg_properties then
      applyKind r.agg_type r.values (a t p)
    else
      a t p

/-- The `answers` map after the script's main loop has consumed a list of
generated records, starting from the empty defaultdict. -/
def runGenerator (records : List GenRecord) : AnswersMap :=
  records.foldl updateAnswers (fun _ _ => {})

/-- Error taxonomy of the oracle contract (spec sections 4.1 and 7). -/
inductive OracleError where
  | invalidInput (msg : String)
  | unknownKind (msg : String)
deriving DecidableEq, Repr

/-- The five kind strings the script's dispatch recognizes. -/
def knownKinds : List String := ["sum", "lval", "mmsc", "dist", "hist"]

/-- Modelled from the spec: the validating Aggregation Oracle
`summarize(kind, values, boundaries, quantiles)` of spec sections 4.1 and 7 is
not present in the source — the script computes slots inline and, by
construction, never sees an empty batch (`random.sample` always yields
`num_values` elements) or a kind outside `aggregations` (`random.choice` picks
from that list), so it has no error path.  This definition follows the spec's
words: a kind outside the closed set of five variants fails with a descriptive
`unknownKind` error; an empty values sequence, a non-ascending boundary list,
or a fractional quantile rank outside `[0,1]` fails with `invalidInput`;
otherwise the summary slots are computed per the spec's table (count and the
final bucket are `len(values)`, quantiles use the fractional-rank
linear-interpolation estimate truncated toward zero). -/
def summarize (kind : String) (values boundaries : List Int)
    (qs : List (Int × Int)) : Except OracleError SummaryRecord :=
  if kind ∉ knownKinds then
    .error (.unknownKind ("unknown aggregation kind: " ++ kind))
  else if values = [] then
    .error (.invalidInput "empty values sequence")
  else if ¬ boundaries.Chain' (fun a b => a < b) then
    .error (.invalidInput "non-ascending boundaries")
  else if ¬ qs.all (fun q => 0 < q.2 && 0 ≤ q.1 && q.1 ≤ q.2) then
    .error (.invalidInput "quantile rank outside the unit interval")
  else if kind = "sum" then
    .ok { value := values.sum }
  else if kind = "lval" then
    .ok { value := values.getD (values.length - 1) 0 }
  else if kind = "mmsc" then
    .ok { value := values.sum, min := pymin values, max := pymax values
          count := (values.length : Int) }
  else if kind = "dist" then
    .ok { value := values.sum, min := pymin values, max := pymax values
          count := (values.length : Int)
          quantile_0 := specLinearQuantileTrunc values (qs.getD 0 (0, 1)).1 (qs.getD 0 (0, 1)).2
          quantile_1 := specLinearQuantileTrunc values (qs.getD 1 (0, 1)).1 (qs.getD 1 (0, 1)).2
          quantile_2 := specLinearQuantileTrunc values (qs.getD 2 (0, 1)).1 (qs.getD 2 (0, 1)).2 }
  else
    .ok { value := values.sum, count := (values.length : Int)
          bucket_0 := countBelow values (boundaries.getD 0 0)
          bucket_1 := countBelow values (boundaries.getD 1 0)
          bucket_2 := countBelow values (boundaries.getD 2 0)
          bucket_3 := (values.length : Int) }

/-! ### Helper lemmas -/

theorem computeAnswer_sum_eq (v : List Int) :
    computeAnswer "sum" v = { value := v.sum } := rfl

theorem computeAnswer_lval_eq (v : List Int) :
    computeAnswer "lval" v = { value := v.getD (v.length - 1) 0 } := rfl

theorem computeAnswer_mmsc_eq (v : List Int) :
    computeAnswer "mmsc" v =
      { value := v.sum, min := pymin v, max := pymax v, count := (num_values : Int) } := rfl

theorem computeAnswer_dist_eq (v : List Int) :
    computeAnswer "dist" v =
      { value := v.sum, min := pymin v, max := pymax v, count := (num_values : Int)
        quantile_0 := distQuantileSlot v 0, quantile_1 := distQuantileSlot v 1
        quantile_2 := distQuantileSlot v 2 } := rfl

theorem computeAnswer_hist_eq (v : List Int) :
    computeAnswer "hist" v =
      { value := v.sum, count := (num_values : Int)
        bucket_0 := countBelow v (-25), bucket_1 := countBelow v 0
        bucket_2 := countBelow v 25, bucket_3 := (num_values : Int) } := rfl

theorem foldl_min_le_init (t : List Int) (a : Int) : t.foldl min a ≤ a := by
  induction t generalizing a with
  | nil => exact le_refl a
  | cons h t ih => exact le_trans (ih (min a h)) (min_le_left a h)

theorem foldl_min_le_mem (t : List Int) (a : Int) :
    ∀ x ∈ t, t.foldl min a ≤ x := by
  induction t generalizing a with
  | nil => intro x hx; cases hx
  | cons h t ih =>
    intro x hx
    rcases List.mem_cons.mp hx with hx | hx
    · subst hx
      exact le_trans (foldl_min_le_init t (min a x)) (min_le_right a x)
    · exact ih (min a h) x hx

theorem foldl_min_mem (t : List Int) (a : Int) :
    t.foldl min a = a ∨ t.foldl min a ∈ t := by
  induction t generalizing a with
  | nil => exact Or.inl rfl
  | cons h t ih =>
    rcases ih (min a h) with hc | hc
    · rcases min_choice a h with hm | hm
      · exact Or.inl (by rw [List.foldl_cons, hc, hm])
      · exact Or.inr (by rw [List.foldl_cons, hc, hm]; exact List.mem_cons_self h t)
    · exact Or.inr (List.mem_cons_of_mem h hc)

theorem foldl_max_le_init (t : List Int) (a : Int) : a ≤ t.foldl max a := by
  induction t generalizing a with
  | nil => exact le_refl a
  | cons h t ih => exact le_trans (le_max_left a h) (ih (max a h))

theorem foldl_max_le_mem (t : List Int) (a : Int) :
    ∀ x ∈ t, x ≤ t.foldl max a := by
  induction t generalizing a with
  | nil => intro x hx; cases hx
  | cons h t ih =>
    intro x hx
    rcases List.mem_cons.mp hx with hx | hx
    · subst hx
      exact le_trans (le_max_right a x) (foldl_max_le_init t (max a x))
    · exact ih (max a h) x hx

theorem foldl_max_mem (t : List Int) (a : Int) :
    t.foldl max a = a ∨ t.foldl max a ∈ t := by
  induction t generalizing a with
  | nil => exact Or.inl rfl
  | cons h t ih =>
    rcases ih (max a h) with hc | hc
    · rcases max_choice a h with hm | hm
      · exact Or.inl (by rw [List.foldl_cons, hc, hm])
      · exact Or.inr (by rw [List.foldl_cons, hc, hm]; exact List.mem_cons_self h t)
    · exact Or.inr (List.mem_cons_of_mem h hc)

theorem pymin_mem (v : List Int) (h : v ≠ []) : pymin v ∈ v := by
  match v with
  | [] => exact absurd rfl h
  | x :: t =>
    rcases foldl_min_mem t x with hc | hc
    · rw [pymin, hc]; exact List.mem_cons_self x t
    · exact List.mem_cons_of_mem x (by rw [pymin]; exact hc)

theorem pymin_le (v : List Int) : ∀ x ∈ v, pymin v ≤ x := by
  match v with
  | [] => intro x hx; cases hx
  | h :: t =>
    intro x hx
    rcases List.mem_cons.mp hx with hx | hx
    · subst hx; exact foldl_min_le_init t x
    · exact foldl_min_le_mem t h x hx

theorem pymax_mem (v : List Int) (h : v ≠ []) : pymax v ∈ v := by
  match v with
  | [] => exact absurd rfl h
  | x :: t =>
    rcases foldl_max_mem t x with hc | hc
    · rw [pymax, hc]; exact List.mem_cons_self x t
    · exact List.mem_cons_of_mem x (by rw [pymax]; exact hc)

theorem pymax_le (v : List Int) : ∀ x ∈ v, x ≤ pymax v := by
  match v with
  | [] => intro x hx; cases hx
  | h :: t =>
    intro x hx
    rcases List.mem_cons.mp hx with hx | hx
    · subst hx; exact foldl_max_le_init t x
    · exact foldl_max_le_mem t h x hx

theorem countBelow_mono (v : List Int) {a b : Int} (hab : a ≤ b) :
    countBelow v a ≤ countBelow v b := by
  unfold countBelow
  have hsub : List.Sublist (v.filter (fun i => decide (i < a)))
      (v.filter (fun i => decide (i < b))) :=
    List.monotone_filter_right v fun x hx => by
      simp only [decide_eq_true_eq] at hx ⊢
      exact lt_of_lt_of_le hx hab
  exact_mod_cast hsub.length_le

theorem countBelow_le_length (v : List Int) (b : Int) :
    countBelow v b ≤ (v.length : Int) := by
  unfold countBelow
  exact_mod_cast List.length_filter_le _ v

theorem getD_length_sub_one (v : List Int) (h : v ≠ []) :
    v.getD (v.length - 1) 0 = v.getLast h := by
  have hpos : 0 < v.length := List.length_pos.mpr h
  have hlt : v.length - 1 < v.length := Nat.sub_lt hpos Nat.one_pos
  rw [List.getD_eq_getElem?_getD, List.getElem?_eq_getElem hlt, Option.getD_some,
    List.getLast_eq_getElem]

theorem foldl_updateAnswers_frame (L : List GenRecord) (a : AnswersMap) (t p : String)
    (h : ∀ s ∈ L, ¬(t = s.agg_type ∧ p = s.agg_properties)) :
    (L.foldl updateAnswers a) t p = a t p := by
  induction L generalizing a with
  | nil => rfl
  | cons r L ih =>
    rw [List.foldl_cons, ih (updateAnswers a r) fun s hs => h s (List.mem_cons_of_mem r hs)]
    unfold updateAnswers
    rw [if_neg (h r (List.mem_cons_self r L))]

theorem updateAnswers_self (a : AnswersMap) (r : GenRecord) :
    updateAnswers a r r.agg_type r.agg_properties
      = applyKind r.agg_type r.values (a r.agg_type r.agg_properties) := by
  unfold updateAnswers
  rw [if_pos ⟨rfl, rfl⟩]

theorem runGenerator_unique_key (L₁ L₂ : List GenRecord) (r : GenRecord)
    (h : ∀ s ∈ L₁ ++ L₂, ¬(r.agg_type = s.agg_type ∧ r.agg_properties = s.agg_properties)) :
    runGenerator (L₁ ++ r :: L₂) r.agg_type r.agg_properties
      = computeAnswer r.agg_type r.values := by
  unfold runGenerator
  rw [List.foldl_append, List.foldl_cons]
  rw [foldl_updateAnswers_frame L₂ _ _ _
    fun s hs => h s (List.mem_append_right L₁ hs)]
  rw [updateAnswers_self]
  rw [foldl_updateAnswers_frame L₁ _ _ _ fun s hs => h s (List.mem_append_left L₂ hs)]
  rfl

/-! ### Claims -/

/-- C1: the claim says the distribution quantile slots are the
linear-interpolation percentile at *fractional* rank q (so 2, 3, 4 for
V = [1,2,3,4,5] at ranks 0.25, 0.5, 0.75), matching the script's own slot
documentation ("0.25 quantile", "0.5 quantile", "0.75 quantile").  The script
instead passes the fractional ranks straight to `numpy.percentile`, whose rank
scale is 0..100, so it computes the 0.0025-, 0.005- and 0.0075-quantiles and
yields 1, 1, 1 on that input: the code contradicts its own documentation.  The
theorem evaluates the embedded script computation at the failing input and the
intended fractional-rank percentile beside it. -/
theorem dist_quantile_rank_scale_bug :
    (computeAnswer "dist" [1, 2, 3, 4, 5]).quantile_0 = 1
    ∧ (computeAnswer "dist" [1, 2, 3, 4, 5]).quantile_1 = 1
    ∧ (computeAnswer "dist" [1, 2, 3, 4, 5]).quantile_2 = 1
    ∧ specLinearQuantileTrunc [1, 2, 3, 4, 5] 25 100 = 2
    ∧ specLinearQuantileTrunc [1, 2, 3, 4, 5] 50 100 = 3
    ∧ specLinearQuantileTrunc [1, 2, 3, 4, 5] 75 100 = 4 := by decide

/-- C2 counterexample: at V = [-50,-30,-10,0,10,30,50,5,15,-5] the claimed
bucket counts (1, 4, 8, 10) are wrong: two elements (-50 and -30) are strictly
below -25, and the script's final all-elements slot holds the constant
`num_values = 8`, not 10. -/
theorem hist_scenario_one_counterexample :
    ¬ ((computeAnswer "hist" [-50, -30, -10, 0, 10, 30, 50, 5, 15, -5]).bucket_0 = 1
       ∧ (computeAnswer "hist" [-50, -30, -10, 0, 10, 30, 50, 5, 15, -5]).bucket_1 = 4
       ∧ (computeAnswer "hist" [-50, -30, -10, 0, 10, 30, 50, 5, 15, -5]).bucket_2 = 8
       ∧ (computeAnswer "hist" [-50, -30, -10, 0, 10, 30, 50, 5, 15, -5]).bucket_3 = 10) := by
  decide

/-- C2 amended: for V = [-50,-30,-10,0,10,30,50,5,15,-5] the histogram answer
holds bucket counts (< -25) = 2, (< 0) = 4, (< 25) = 8, and the final
all-elements slot holds the configuration constant `num_values = 8` — which
differs from len(V) = 10 because the script writes `num_values` there, not the
batch length. -/
theorem hist_scenario_one_buckets :
    (computeAnswer "hist" [-50, -30, -10, 0, 10, 30, 50, 5, 15, -5]).bucket_0 = 2
    ∧ (computeAnswer "hist" [-50, -30, -10, 0, 10, 30, 50, 5, 15, -5]).bucket_1 = 4
    ∧ (computeAnswer "hist" [-50, -30, -10, 0, 10, 30, 50, 5, 15, -5]).bucket_2 = 8
    ∧ (computeAnswer "hist" [-50, -30, -10, 0, 10, 30, 50, 5, 15, -5]).bucket_3
        = (num_values : Int)
    ∧ (num_values : Int) = 8
    ∧ ([-50, -30, -10, 0, 10, 30, 50, 5, 15, -5] : List Int).length = 10 := by decide

/-- C7: the last-value answer's final slot is the last element of the batch in
sampling order (`values[len(values) - 1]`), not the largest element and not the
last element after sorting. -/
theorem lval_last_in_order (v : List Int) (hne : v ≠ []) :
    (computeAnswer "lval" v).value = v.getLast hne := by
  rw [computeAnswer_lval_eq]
  exact getD_length_sub_one v hne

/-- C7 witness: on [3,1,2] the last-value slot is 2 (the sampling-order last
element; the largest element is 3 and the sorted-last element is 3). -/
theorem lval_last_in_order_witness :
    ([3, 1, 2] : List Int) ≠ []
    ∧ (computeAnswer "lval" [3, 1, 2]).value = ([3, 1, 2] : List Int).getLast (by decide) :=
  ⟨by decide, lval_last_in_order [3, 1, 2] (by decide)⟩

/-- C9: for every kind and values batch, the slots not assigned by that kind's
branch stay at the defaultdict's neutral zero: sum and last-value leave all ten
non-final slots at 0; mmsc leaves all bucket and quantile slots at 0; histogram
leaves min, max, and the quantile slots at 0; distribution leaves all bucket
slots at 0. -/
theorem irrelevant_slots_zero (v : List Int) :
    ((computeAnswer "sum" v).min = 0 ∧ (computeAnswer "sum" v).max = 0
      ∧ (computeAnswer "sum" v).count = 0
      ∧ (computeAnswer "sum" v).bucket_0 = 0 ∧ (computeAnswer "sum" v).bucket_1 = 0
      ∧ (computeAnswer "sum" v).bucket_2 = 0 ∧ (computeAnswer "sum" v).bucket_3 = 0
      ∧ (computeAnswer "sum" v).quantile_0 = 0 ∧ (computeAnswer "sum" v).quantile_1 = 0
      ∧ (computeAnswer "sum" v).quantile_2 = 0)
    ∧ ((computeAnswer "lval" v).min = 0 ∧ (computeAnswer "lval" v).max = 0
      ∧ (computeAnswer "lval" v).count = 0
      ∧ (computeAnswer "lval" v).bucket_0 = 0 ∧ (computeAnswer "lval" v).bucket_1 = 0
      ∧ (computeAnswer "lval" v).bucket_2 = 0 ∧ (computeAnswer "lval" v).bucket_3 = 0
      ∧ (computeAnswer "lval" v).quantile_0 = 0 ∧ (computeAnswer "lval" v).quantile_1 = 0
      ∧ (computeAnswer "lval" v).quantile_2 = 0)
    ∧ ((computeAnswer "mmsc" v).bucket_0 = 0 ∧ (computeAnswer "mmsc" v).bucket_1 = 0
      ∧ (computeAnswer "mmsc" v).bucket_2 = 0 ∧ (computeAnswer "mmsc" v).bucket_3 = 0
      ∧ (computeAnswer "mmsc" v).quantile_0 = 0 ∧ (computeAnswer "mmsc" v).quantile_1 = 0
      ∧ (computeAnswer "mmsc" v).quantile_2 = 0)
    ∧ ((computeAnswer "hist" v).min = 0 ∧ (computeAnswer "hist" v).max = 0
      ∧ (computeAnswer "hist" v).quantile_0 = 0 ∧ (computeAnswer "hist" v).quantile_1 = 0
      ∧ (computeAnswer "hist" v).quantile_2 = 0)
    ∧ ((computeAnswer "dist" v).bucket_0 = 0 ∧ (computeAnswer "dist" v).bucket_1 = 0
      ∧ (computeAnswer "dist" v).bucket_2 = 0 ∧ (computeAnswer "dist" v).bucket_3 = 0) :=
  ⟨⟨rfl, rfl, rfl, rfl, rfl, rfl, rfl, rfl, rfl, rfl⟩,
   ⟨rfl, rfl, rfl, rfl, rfl, rfl, rfl, rfl, rfl, rfl⟩,
   ⟨rfl, rfl, rfl, rfl, rfl, rfl, rfl⟩,
   ⟨rfl, rfl, rfl, rfl, rfl⟩,
   ⟨rfl, rfl, rfl, rfl⟩⟩

/-- C10: the count slot of the mmsc, distribution and histogram answers, and
the final all-elements histogram bucket, hold the configuration constant
`num_values`, not the computed batch length; they agree with `len(values)`
exactly when the batch has `num_values` elements (which every batch the script
samples does), and disagree on any hypothetical batch of a different length. -/
theorem count_slot_is_num_values (v : List Int) :
    (computeAnswer "mmsc" v).count = (num_values : Int)
    ∧ (computeAnswer "dist" v).count = (num_values : Int)
    ∧ (computeAnswer "hist" v).count = (num_values : Int)
    ∧ (computeAnswer "hist" v).bucket_3 = (num_values : Int)
    ∧ (v.length = num_values → (computeAnswer "hist" v).bucket_3 = (v.length : Int)
        ∧ (computeAnswer "mmsc" v).count = (v.length : Int))
    ∧ (v.length ≠ num_values → (computeAnswer "hist" v).bucket_3 ≠ (v.length : Int)
        ∧ (computeAnswer "mmsc" v).count ≠ (v.length : Int)) := by
  refine ⟨rfl, rfl, rfl, rfl, fun h => ⟨?_, ?_⟩, fun h => ⟨?_, ?_⟩⟩
  · rw [computeAnswer_hist_eq, h]
  · rw [computeAnswer_mmsc_eq, h]
  · rw [computeAnswer_hist_eq]
    exact fun hc => h (Int.ofNat_inj.mp hc.symm)
  · rw [computeAnswer_mmsc_eq]
    exact fun hc => h (Int.ofNat_inj.mp hc.symm)

/-- C10 witness: on the 8-element batch [10,20,30,40,50,60,70,80] the count
slot equals the batch length, and on the 3-element batch [1,2,3] it does not
(it stays at the constant 8). -/
theorem count_slot_is_num_values_witness :
    (([10, 20, 30, 40, 50, 60, 70, 80] : List Int).length = num_values
      → (computeAnswer "hist" [10, 20, 30, 40, 50, 60, 70, 80]).bucket_3
          = (([10, 20, 30, 40, 50, 60, 70, 80] : List Int).length : Int)
        ∧ (computeAnswer "mmsc" [10, 20, 30, 40, 50, 60, 70, 80]).count
          = (([10, 20, 30, 40, 50, 60, 70, 80] : List Int).length : Int))
    ∧ (([1, 2, 3] : List Int).length ≠ num_values
      → (computeAnswer "hist" [1, 2, 3]).bucket_3 ≠ (([1, 2, 3] : List Int).length : Int)
        ∧ (computeAnswer "mmsc" [1, 2, 3]).count ≠ (([1, 2, 3] : List Int).length : Int)) :=
  ⟨(count_slot_is_num_values [10, 20, 30, 40, 50, 60, 70, 80]).2.2.2.2.1,
   (count_slot_is_num_values [1, 2, 3]).2.2.2.2.2⟩

/-- C3 (spec-modelled): the validating oracle rejects an empty values sequence
with an `InvalidInput` error for every one of the five kinds, instead of
producing a summary record of zero-valued statistics. -/
theorem summarize_empty_invalid (k : String) (hk : k ∈ knownKinds)
    (B : List Int) (qs : List (Int × Int)) :
    summarize k [] B qs = .error (.invalidInput "empty values sequence") := by
  fin_cases hk <;> rfl

/-- C3 witness: instantiated at each of the five kinds with the reference
boundaries and quantile configuration. -/
theorem summarize_empty_invalid_witness :
    "sum" ∈ knownKinds
    ∧ summarize "sum" [] histogram_boundaries quantiles
        = .error (.invalidInput "empty values sequence")
    ∧ summarize "lval" [] histogram_boundaries quantiles
        = .error (.invalidInput "empty values sequence")
    ∧ summarize "mmsc" [] histogram_boundaries quantiles
        = .error (.invalidInput "empty values sequence")
    ∧ summarize "dist" [] histogram_boundaries quantiles
        = .error (.invalidInput "empty values sequence")
    ∧ summarize "hist" [] histogram_boundaries quantiles
        = .error (.invalidInput "empty values sequence") :=
  ⟨by decide,
   summarize_empty_invalid "sum" (by decide) histogram_boundaries quantiles,
   summarize_empty_invalid "lval" (by decide) histogram_boundaries quantiles,
   summarize_empty_invalid "mmsc" (by decide) histogram_boundaries quantiles,
   summarize_empty_invalid "dist" (by decide) histogram_boundaries quantiles,
   summarize_empty_invalid "hist" (by decide) histogram_boundaries quantiles⟩

/-- C4 (spec-modelled): for every kind string outside the closed set of five
variants, the validating oracle fails with a descriptive `UnknownKind` error
naming the offending kind, for all values, boundaries and quantile inputs,
instead of producing a partially-populated or all-zero record. -/
theorem summarize_unknown_kind (k : String) (hk : k ∉ knownKinds)
    (v B : List Int) (qs : List (Int × Int)) :
    summarize k v B qs = .error (.unknownKind ("unknown aggregation kind: " ++ k)) := by
  unfold summarize
  rw [if_pos hk]

/-- C4 witness: instantiated at the unrecognized kind "gauge". -/
theorem summarize_unknown_kind_witness :
    "gauge" ∉ knownKinds
    ∧ summarize "gauge" [1, 2, 3] histogram_boundaries quantiles
        = .error (.unknownKind ("unknown aggregation kind: " ++ "gauge")) :=
  ⟨by decide, summarize_unknown_kind "gauge" (by decide) [1, 2, 3] histogram_boundaries quantiles⟩

/-- C6: for every non-empty batch of the size the script samples, the sum,
mmsc and distribution answers put the mathematical sum of the batch in the
final-value slot, and the mmsc and distribution answers put the minimum of the
batch in the min slot (a member below every element), the maximum in the max
slot (a member above every element), and the batch length in the count slot. -/
theorem main_stats_correct (v : List Int) (hne : v ≠ []) (hlen : v.length = num_values) :
    (computeAnswer "sum" v).value = v.sum
    ∧ (computeAnswer "mmsc" v).value = v.sum
    ∧ (computeAnswer "dist" v).value = v.sum
    ∧ (computeAnswer "mmsc" v).min ∈ v
    ∧ (∀ x ∈ v, (computeAnswer "mmsc" v).min ≤ x)
    ∧ (computeAnswer "mmsc" v).max ∈ v
    ∧ (∀ x ∈ v, x ≤ (computeAnswer "mmsc" v).max)
    ∧ (computeAnswer "dist" v).min ∈ v
    ∧ (∀ x ∈ v, (computeAnswer "dist" v).min ≤ x)
    ∧ (computeAnswer "dist" v).max ∈ v
    ∧ (∀ x ∈ v, x ≤ (computeAnswer "dist" v).max)
    ∧ (computeAnswer "mmsc" v).count = (v.length : Int)
    ∧ (computeAnswer "dist" v).count = (v.length : Int) := by
  rw [computeAnswer_sum_eq, computeAnswer_mmsc_eq, computeAnswer_dist_eq]
  exact ⟨rfl, rfl, rfl,
    pymin_mem v hne, pymin_le v, pymax_mem v hne, pymax_le v,
    pymin_mem v hne, pymin_le v, pymax_mem v hne, pymax_le v,
    by rw [hlen], by rw [hlen]⟩

/-- C6 witness: instantiated at the 8-element batch [7,3,9,1,8,2,6,5]. -/
theorem main_stats_correct_witness :
    ([7, 3, 9, 1, 8, 2, 6, 5] : List Int) ≠ []
    ∧ ([7, 3, 9, 1, 8, 2, 6, 5] : List Int).length = num_values
    ∧ (computeAnswer "sum" [7, 3, 9, 1, 8, 2, 6, 5]).value
        = ([7, 3, 9, 1, 8, 2, 6, 5] : List Int).sum :=
  ⟨by decide, by decide,
   (main_stats_correct [7, 3, 9, 1, 8, 2, 6, 5] (by decide) (by decide)).1⟩

/-- C8: the answer the generation loop leaves for a series is a pure function
of that record's kind and values (the boundaries and quantile ranks being the
fixed configuration constants): whichever other records surround it, in
whatever order, the entry at the record's key is `computeAnswer` of the
record's own kind and values, so two runs whose record lists both contain the
series' record produce the identical summary for it. -/
theorem oracle_deterministic (L₁ L₂ M₁ M₂ : List GenRecord) (r : GenRecord)
    (hL : ∀ s ∈ L₁ ++ L₂, ¬(r.agg_type = s.agg_type ∧ r.agg_properties = s.agg_properties))
    (hM : ∀ s ∈ M₁ ++ M₂, ¬(r.agg_type = s.agg_type ∧ r.agg_properties = s.agg_properties)) :
    runGenerator (L₁ ++ r :: L₂) r.agg_type r.agg_properties
      = computeAnswer r.agg_type r.values
    ∧ runGenerator (L₁ ++ r :: L₂) r.agg_type r.agg_properties
      = runGenerator (M₁ ++ r :: M₂) r.agg_type r.agg_properties := by
  have h1 := runGenerator_unique_key L₁ L₂ r hL
  have h2 := runGenerator_unique_key M₁ M₂ r hM
  exact ⟨h1, h1.trans h2.symm⟩

/-- C8 witness: the record (sum, series "a", [1,2,3]) yields the same summary
whether it is preceded or followed by an unrelated record of another series. -/
theorem oracle_deterministic_witness :
    (∀ s ∈ ([⟨"hist", "b", [4, 5]⟩] ++ ([] : List GenRecord)),
      ¬((GenRecord.mk "sum" "a" [1, 2, 3]).agg_type = s.agg_type
        ∧ (GenRecord.mk "sum" "a" [1, 2, 3]).agg_properties = s.agg_properties))
    ∧ runGenerator ([⟨"hist", "b", [4, 5]⟩] ++ GenRecord.mk "sum" "a" [1, 2, 3] :: [])
        (GenRecord.mk "sum" "a" [1, 2, 3]).agg_type
        (GenRecord.mk "sum" "a" [1, 2, 3]).agg_properties
      = runGenerator (([] : List GenRecord) ++ GenRecord.mk "sum" "a" [1, 2, 3]
          :: [⟨"hist", "b", [4, 5]⟩])
        (GenRecord.mk "sum" "a" [1, 2, 3]).agg_type
        (GenRecord.mk "sum" "a" [1, 2, 3]).agg_properties :=
  ⟨by decide,
   (oracle_deterministic [⟨"hist", "b", [4, 5]⟩] [] [] [⟨"hist", "b", [4, 5]⟩]
      (GenRecord.mk "sum" "a" [1, 2, 3]) (by decide) (by decide)).2⟩

/-- C5 counterexample: on a hypothetical 3-element batch the script's final
all-elements bucket slot holds the constant `num_values = 8`, not len(V) = 3,
so the claimed final-bucket equality fails off the sampled batch size. -/
theorem hist_final_bucket_counterexample :
    ¬ ((computeAnswer "hist" [1, 2, 3]).bucket_3
        = (([1, 2, 3] : List Int).length : Int)) := by decide

/-- C6 counterexample: on a hypothetical 3-element batch the mmsc count slot
holds the constant `num_values = 8`, not len(V) = 3, so the claimed count
equality fails off the sampled batch size. -/
theorem mmsc_count_counterexample :
    ¬ ((computeAnswer "mmsc" [1, 2, 3]).count
        = (([1, 2, 3] : List Int).length : Int)) := by decide

/-- C5: for every batch of the size the script samples and every strictly
ascending boundary list of length N, the histogram bucket row has N+1 entries;
entry i (for i < N) counts the values strictly below the i-th boundary; the
final entry equals the batch length; the entries are monotonically
non-decreasing along the row; and at the reference boundary configuration the
row is exactly the four bucket slots the script's histogram branch fills. -/
theorem hist_buckets_spec (v B : List Int) (hne : v ≠ [])
    (hasc : B.Chain' (fun a b => a < b)) (hlen : v.length = num_values) :
    (histBuckets v B).length = B.length + 1
    ∧ (∀ i, i < B.length → (histBuckets v B).getD i 0 = countBelow v (B.getD i 0))
    ∧ (histBuckets v B).getLast? = some ((v.length : Int))
    ∧ (histBuckets v B).Chain' (fun a b => a ≤ b)
    ∧ [(computeAnswer "hist" v).bucket_0, (computeAnswer "hist" v).bucket_1,
        (computeAnswer "hist" v).bucket_2, (computeAnswer "hist" v).bucket_3]
        = histBuckets v histogram_boundaries := by
  refine ⟨by simp [histBuckets], ?_, ?_, ?_, ?_⟩
  · intro i hi
    have hi' : i < (B.map (countBelow v)).length := by simpa using hi
    rw [histBuckets, List.getD_eq_getElem?_getD, List.getElem?_append_left hi',
      List.getElem?_map, List.getElem?_eq_getElem hi, List.getD_eq_getElem?_getD,
      List.getElem?_eq_getElem hi]
    rfl
  · rw [histBuckets, List.getLast?_concat, hlen]
  · rw [histBuckets, List.chain'_append]
    refine ⟨?_, List.chain'_singleton _, ?_⟩
    · rw [List.chain'_map]
      exact hasc.imp fun a b hab => countBelow_mono v (le_of_lt hab)
    · intro x hx y hy
      have hy' : (num_values : Int) = y := by simpa using hy
      have hx' : x ∈ B.map (countBelow v) := List.mem_of_getLast?_eq_some hx
      obtain ⟨b, hb, rfl⟩ := List.mem_map.mp hx'
      rw [← hy', ← hlen]
      exact countBelow_le_length v b
  · rfl

/-- C5 witness: instantiated at the 8-element batch [7,3,9,1,8,2,6,5] and the
reference boundaries [-25, 0, 25]. -/
theorem hist_buckets_spec_witness :
    ([7, 3, 9, 1, 8, 2, 6, 5] : List Int) ≠ []
    ∧ List.Chain' (fun a b => a < b) ([-25, 0, 25] : List Int)
    ∧ ([7, 3, 9, 1, 8, 2, 6, 5] : List Int).length = num_values
    ∧ (histBuckets [7, 3, 9, 1, 8, 2, 6, 5] [-25, 0, 25]).getLast?
        = some ((([7, 3, 9, 1, 8, 2, 6, 5] : List Int).length : Int))
    ∧ (histBuckets [7, 3, 9, 1, 8, 2, 6, 5] [-25, 0, 25]).Chain' (fun a b => a ≤ b) :=
  ⟨by decide, by norm_num [List.chain'_cons], by decide,
   (hist_buckets_spec [7, 3, 9, 1, 8, 2, 6, 5] [-25, 0, 25]
      (by decide) (by norm_num [List.chain'_cons]) (by decide)).2.2.1,
   (hist_buckets_spec [7, 3, 9, 1, 8, 2, 6, 5] [-25, 0, 25]
      (by decide) (by norm_num [List.chain'_cons]) (by decide)).2.2.2.1⟩
